import Mathlib

/-!
A shallow embedding of the MenuSnap bot (src/main.py): the callback-token
registry, the in-memory menu model, the two event handlers and the
image-acquisition pipeline. External collaborators are passed in as explicit
oracle arguments: the uuid slice used for a token, the OCR text, the combined
LLM-call/literal-eval outcome, the image-search result list, the HTTP response
per URL, and the success of each file removal. Everything the repository's own
code does with those answers is modelled directly; a raised Python exception is
an Except.error.
-/

/-- Python literal values that the literal evaluation of the structuring
output can hand back, restricted to the constructors this program can meet:
None, ints, strings, lists, and string-keyed dicts. A dict value carries its
items in insertion order, as Python dict construction leaves them. -/
inductive PyVal where
  | pyNone : PyVal
  | int : Int → PyVal
  | str : String → PyVal
  | list : List PyVal → PyVal
  | dict : List (String × PyVal) → PyVal

/-- The Python exceptions this core can raise. netError stands for the
client exception a failed HTTP request raises, apiError for a raised
chat-completion call. -/
inductive PyErr where
  | attributeError : PyErr
  | typeError : PyErr
  | indexError : PyErr
  | netError : PyErr
  | apiError : PyErr

/-- The distinct chat messages the handlers emit, as structured tags.
Messages that interpolate a value carry that value as a field. -/
inductive Msg where
  | imageReceived : Msg
  | noTextSeen : Msg
  | parseFailed : Msg
  | chooseCategory : Msg
  | processingError : PyErr → Msg
  | chooseDish : PyVal → Msg
  | noDishes : Msg
  | selectedSearching : PyVal → Msg
  | noRelevantImages : Msg
  | continueOrExit : Msg
  | chooseAnotherCategory : Msg
  | farewell : Msg

/-- One inline button: its label object and its callback-data string. -/
def Button := PyVal × String

/-- Outbound render instructions: a fresh reply, an edit of the pressed
message, or a media group of downloaded files. -/
inductive Out where
  | reply : Msg → Option (List Button) → Out
  | edit : Msg → Option (List Button) → Out
  | media : List String → Out

/-- First-match association lookup: the read half of a Python dict. -/
def lookupAssoc {α β : Type} [DecidableEq α] (k : α) : List (α × β) → Option β
  | [] => none
  | (k', v) :: rest => if k' = k then some v else lookupAssoc k rest

/-- Python dict assignment: overwrite in place when the key exists, else
append, preserving insertion order. -/
def updateAssoc {α β : Type} [DecidableEq α] (k : α) (v : β) :
    List (α × β) → List (α × β)
  | [] => [(k, v)]
  | (k', v') :: rest =>
    if k' = k then (k', v) :: rest else (k', v') :: updateAssoc k v rest

/-- The characters Python str.strip removes. -/
def pyIsSpace (c : Char) : Bool :=
  c = ' ' || c = '\t' || c = '\n' || c = '\r' || c = '\x0b' || c = '\x0c'

/-- Python str.strip. -/
def pyStrip (s : String) : String :=
  String.mk (((s.data.dropWhile pyIsSpace).reverse.dropWhile pyIsSpace).reverse)

/-- Whether the first list is an initial segment of the second. -/
def startsAux : List Char → List Char → Bool
  | [], _ => true
  | _ :: _, [] => false
  | a :: as, b :: bs => (a == b) && startsAux as bs

/-- Python str.startswith. -/
def pyStartsWith (pre s : String) : Bool :=
  startsAux pre.data s.data

/-- Everything after the first occurrence of the separator, if any. -/
def splitRestAux (sep : Char) : List Char → Option (List Char)
  | [] => none
  | c :: rest => if c = sep then some rest else splitRestAux sep rest

/-- The second component of data.split with separator colon and maxsplit one,
as the selection handler uses it on callback data; none when the string has no
colon, where the Python indexing would raise instead. -/
def pySplitSnd (s : String) : Option String :=
  (splitRestAux ':' s.data).map String.mk

/-- Python truthiness of the modelled values. -/
def pyTruthy : PyVal → Bool
  | .pyNone => false
  | .int n => if n = 0 then false else true
  | .str s => !s.isEmpty
  | .list xs => !xs.isEmpty
  | .dict xs => !xs.isEmpty

/-- Python iteration: lists yield their elements, strings yield one-character
strings, dicts yield their keys; other values raise TypeError. -/
def pyIter : PyVal → Except PyErr (List PyVal)
  | .list xs => .ok xs
  | .str s => .ok (s.data.map fun c => PyVal.str (String.mk [c]))
  | .dict items => .ok (items.map fun p => PyVal.str p.1)
  | _ => .error .typeError

/-- Python x.get(key, default) on a modelled value: AttributeError when the
receiver is not a dict, TypeError on an unhashable key, otherwise the stored
value or the default. Our dict model has string keys, so any other hashable
key is simply absent. -/
def pyDictGet : PyVal → PyVal → PyVal → Except PyErr PyVal
  | .dict items, .str k, d => .ok ((lookupAssoc k items).getD d)
  | .dict _, .list _, _ => .error .typeError
  | .dict _, .dict _, _ => .error .typeError
  | .dict _, .pyNone, d => .ok d
  | .dict _, .int _, d => .ok d
  | _, _, _ => .error .attributeError

/-- Python list of x.keys: the dict keys in insertion order, AttributeError
when the receiver is not a dict. -/
def pyDictKeysList : PyVal → Except PyErr (List String)
  | .dict items => .ok (items.map Prod.fst)
  | _ => .error .attributeError

/-- An HTTP response as download_image consumes it: the status code and the
length of the body it would read. -/
structure HttpResponse where
  status : Nat
  bodyLen : Nat

/-- The program's global mutable state: the process-wide menu value, the two
per-user selection dicts, the callback token table, and the downloads
directory as a map from file path to byte size. -/
structure BotState where
  menu_data : PyVal
  user_category_choice : List (Nat × PyVal)
  user_dish_choice : List (Nat × PyVal)
  button_lookup : List (String × PyVal)
  downloads : List (String × Nat)

/-- create_callback: store the label under the fresh uid slice (an oracle
argument standing for the first eight uuid characters) and return the button
payload built as pre, a colon, and the uid, together with the grown table. -/
def create_callback (pre : String) (text : PyVal) (uidStr : String)
    (tbl : List (String × PyVal)) : String × List (String × PyVal) :=
  (pre ++ ":" ++ uidStr, updateAssoc uidStr text tbl)

/-- resolve_callback: look the token up in button_lookup, with the sentinel
string Unknown as the default. Total, so it never raises. -/
def resolve_callback (tbl : List (String × PyVal)) (data : String) : PyVal :=
  (lookupAssoc data tbl).getD (PyVal.str "Unknown")

/-- The keyboard-building comprehensions: one button per label, each label
registered through create_callback with the next uid from the stream. -/
def buildKeyboard (pre : String) (uid : Nat → String) :
    Nat → List PyVal → List (String × PyVal) →
    List Button × List (String × PyVal)
  | _, [], tbl => ([], tbl)
  | i, l :: ls, tbl =>
    let r := create_callback pre l (uid i) tbl
    let rest := buildKeyboard pre uid (i + 1) ls r.2
    ((l, r.1) :: rest.1, rest.2)

/-- download_image: a missing response models a raised client exception,
which the source does not catch; a status-200 response whose body reaches
1024 bytes writes the file and returns true; any other response returns false
and leaves the directory untouched. -/
def download_image (url filepath : String) (net : String → Option HttpResponse)
    (fs : List (String × Nat)) : Except PyErr (Bool × List (String × Nat)) :=
  match net url with
  | none => .error .netError
  | some resp =>
    if resp.status = 200 then
      if resp.bodyLen < 1024 then .ok (false, fs)
      else .ok (true, updateAssoc filepath resp.bodyLen fs)
    else .ok (false, fs)

/-- The per-dish download path: downloads slash userId underscore idx dot jpg. -/
def dlFileName (userId idx : Nat) : String :=
  "downloads/" ++ toString userId ++ "_" ++ toString idx ++ ".jpg"

/-- The dish-branch loop over the first MAX_IMAGES search results: validated
downloads join the media group in order; a raised download aborts the
handler. -/
def galleryLoop (userId : Nat) (net : String → Option HttpResponse) :
    Nat → List (String × Nat) → List String →
    Except PyErr (List (String × Nat) × List String)
  | _, fs, [] => .ok (fs, [])
  | idx, fs, u :: us =>
    match download_image u (dlFileName userId idx) net fs with
    | .error e => .error e
    | .ok (true, fs') =>
      match galleryLoop userId net (idx + 1) fs' us with
      | .error e => .error e
      | .ok (fs'', g) => .ok (fs'', dlFileName userId idx :: g)
    | .ok (false, fs') => galleryLoop userId net (idx + 1) fs' us

/-- The exit-branch cleanup: try to remove every listed file, swallowing each
failure; the files whose removal failed remain. Total, so it never raises. -/
def purgeAll (fs : List (String × Nat)) (removeOk : String → Bool) :
    List (String × Nat) :=
  fs.filter fun e => !removeOk e.1

/-- The photo saved to the downloads directory at the start of handle_image. -/
def savedPhoto (st : BotState) (fileId : String) (photoSize : Nat) : BotState :=
  { st with downloads :=
      updateAssoc ("downloads/" ++ fileId ++ ".jpg") photoSize st.downloads }

/-- handle_image from the acknowledgement reply on. The uploaded photo lands
in the downloads directory; the OCR text arrives as extractedText; the
chat-completion call composed with the literal evaluation of its answer
arrives as llm: error means the API call raised, ok none means the literal
evaluation raised (caught by the inner handler), ok some v is the parsed
value, which the code stores as the menu before listing its keys. -/
def handle_image (st : BotState) (fileId : String) (photoSize : Nat)
    (extractedText : String) (llm : Except PyErr (Option PyVal))
    (uid : Nat → String) : BotState × List Out :=
  if pyStrip extractedText = "" then
    (savedPhoto st fileId photoSize,
     [Out.reply Msg.imageReceived none, Out.reply Msg.noTextSeen none])
  else
    match llm with
    | .error e =>
      (savedPhoto st fileId photoSize,
       [Out.reply Msg.imageReceived none,
        Out.reply (Msg.processingError e) none])
    | .ok none =>
      (savedPhoto st fileId photoSize,
       [Out.reply Msg.imageReceived none, Out.reply Msg.parseFailed none])
    | .ok (some menu) =>
      match pyDictKeysList menu with
      | .error e =>
        ({ savedPhoto st fileId photoSize with menu_data := menu },
         [Out.reply Msg.imageReceived none,
          Out.reply (Msg.processingError e) none])
      | .ok cats =>
        let r := buildKeyboard "category" uid 0 (cats.map PyVal.str)
          st.button_lookup
        let st' := { savedPhoto st fileId photoSize with
          menu_data := menu, button_lookup := r.2 }
        (st',
         [Out.reply Msg.imageReceived none,
          Out.reply Msg.chooseCategory (some r.1)])

/-- The category branch of handle_selection after the token is resolved:
store the choice, read the dish list from the menu with an empty-list
default, and either render dish buttons or report the empty category. The
choice assignment happens before the menu read in the source; the error
result of this model stands for the handler aborting, and no claim reads the
state after an abort. -/
def categoryBranch (st : BotState) (userId : Nat) (category : PyVal)
    (uid : Nat → String) : Except PyErr (BotState × List Out) :=
  match pyDictGet st.menu_data category (PyVal.list []) with
  | .error e => .error e
  | .ok dishes =>
    if pyTruthy dishes then
      match pyIter dishes with
      | .error e => .error e
      | .ok ds =>
        let r := buildKeyboard "dish" uid 0 ds st.button_lookup
        let choice := updateAssoc userId category st.user_category_choice
        .ok ({ st with user_category_choice := choice, button_lookup := r.2 },
             [Out.edit (Msg.chooseDish category) (some r.1)])
    else
      let choice := updateAssoc userId category st.user_category_choice
      .ok ({ st with user_category_choice := choice },
           [Out.edit Msg.noDishes none])

/-- The dish branch of handle_selection after the token is resolved: store
the choice, take the search result list (an oracle argument standing for the
image search on the resolved dish), download up to four candidates, then the
gallery or the empty-result message followed by the continue and exit
buttons. -/
def dishBranch (st : BotState) (userId : Nat) (dish : PyVal)
    (search : List String) (net : String → Option HttpResponse) :
    Except PyErr (BotState × List Out) :=
  match galleryLoop userId net 0 st.downloads (search.take 4) with
  | .error e => .error e
  | .ok (fs', media) =>
    let choice := updateAssoc userId dish st.user_dish_choice
    .ok ({ st with user_dish_choice := choice, downloads := fs' },
         [Out.edit (Msg.selectedSearching dish) none,
          if media.isEmpty then Out.reply Msg.noRelevantImages none
          else Out.media media,
          Out.reply Msg.continueOrExit
            (some [(PyVal.str "Explore More 🍽", "continue"),
                   (PyVal.str "Exit ❌", "exit")])])

/-- The continue branch: rebuild the category keyboard from the current
menu. -/
def continueBranch (st : BotState) (uid : Nat → String) :
    Except PyErr (BotState × List Out) :=
  match pyDictKeysList st.menu_data with
  | .error e => .error e
  | .ok cats =>
    let r := buildKeyboard "category" uid 0 (cats.map PyVal.str)
      st.button_lookup
    .ok ({ st with button_lookup := r.2 },
         [Out.reply Msg.chooseAnotherCategory (some r.1)])

/-- The exit branch: best-effort purge of the downloads directory, then the
farewell message. -/
def exitBranch (st : BotState) (removeOk : String → Bool) :
    Except PyErr (BotState × List Out) :=
  let cleaned := purgeAll st.downloads removeOk
  .ok ({ st with downloads := cleaned }, [Out.reply Msg.farewell none])

/-- handle_selection: dispatch on the callback data exactly as the source's
chain of conditions does; unmatched data falls through with no effect. -/
def handle_selection (st : BotState) (userId : Nat) (data : String)
    (uid : Nat → String) (search : List String)
    (net : String → Option HttpResponse) (removeOk : String → Bool) :
    Except PyErr (BotState × List Out) :=
  if pyStartsWith "category:" data then
    match pySplitSnd data with
    | none => .error .indexError
    | some tok =>
      categoryBranch st userId (resolve_callback st.button_lookup tok) uid
  else if pyStartsWith "dish:" data then
    match pySplitSnd data with
    | none => .error .indexError
    | some tok =>
      dishBranch st userId (resolve_callback st.button_lookup tok) search net
  else if data = "continue" then continueBranch st uid
  else if data = "exit" then exitBranch st removeOk
  else .ok (st, [])

/-- Whether a value is a string literal. -/
def isStrVal : PyVal → Bool
  | .str _ => true
  | _ => false

/-- Whether a value is a list of strings. -/
def isStrListVal : PyVal → Bool
  | .list ds => ds.all isStrVal
  | _ => false

/-- The menu shape the specification requires of the structuring output: a
mapping whose values are lists of dish-name strings. -/
def isMenuShape : PyVal → Bool
  | .dict items => items.all fun p => isStrListVal p.2
  | _ => false

/-- A list of dish names as the modelled Python value. -/
def strListVal (ds : List String) : PyVal :=
  PyVal.list (ds.map PyVal.str)

/-- A well-shaped menu value built from a plain association list. -/
def menuVal (m : List (String × List String)) : PyVal :=
  PyVal.dict (m.map fun p => (p.1, strListVal p.2))

/-- Whether the download of a URL would be accepted: a response arrives, has
status 200, and carries at least 1024 bytes. -/
def validated (net : String → Option HttpResponse) (u : String) : Bool :=
  match net u with
  | none => false
  | some resp =>
    if resp.status = 200 then
      if resp.bodyLen < 1024 then false else true
    else false

/-- Pair each element with its position, counting from i. -/
def idxFrom (i : Nat) : List String → List (Nat × String)
  | [] => []
  | u :: us => (i, u) :: idxFrom (i + 1) us

/-- The specification's reading of assembleGallery with maxImages four: the
validated subset of the first four search results, in search order, as local
file handles. -/
def assembleGallerySpec (userId : Nat) (net : String → Option HttpResponse)
    (urls : List String) : List String :=
  ((idxFrom 0 (urls.take 4)).filter fun p => validated net p.2).map
    fun p => dlFileName userId p.1

/-! ### Helper lemmas -/

theorem string_data_append (s t : String) : (s ++ t).data = s.data ++ t.data :=
  rfl

theorem lookupAssoc_updateAssoc_self {α β : Type} [DecidableEq α] (k : α)
    (v : β) (l : List (α × β)) :
    lookupAssoc k (updateAssoc k v l) = some v := by
  induction l with
  | nil => simp [updateAssoc, lookupAssoc]
  | cons p rest ih =>
    obtain ⟨k', v'⟩ := p
    by_cases h : k' = k
    · simp [updateAssoc, lookupAssoc, h]
    · simp [updateAssoc, lookupAssoc, h, ih]

theorem lookupAssoc_mem {β : Type} (k : String) (l : List (String × β)) (v : β)
    (h : lookupAssoc k l = some v) : (k, v) ∈ l := by
  induction l with
  | nil => simp [lookupAssoc] at h
  | cons p rest ih =>
    obtain ⟨k', v'⟩ := p
    by_cases hk : k' = k
    · subst hk
      simp [lookupAssoc] at h
      subst h
      exact List.mem_cons_self _ _
    · simp [lookupAssoc, hk] at h
      exact List.mem_cons_of_mem _ (ih h)

theorem lookupAssoc_of_mem_nodup {β : Type} (m : List (String × β)) (c : String)
    (ds : β) (hnd : (m.map Prod.fst).Nodup) (hmem : (c, ds) ∈ m) :
    lookupAssoc c m = some ds := by
  induction m with
  | nil => cases hmem
  | cons p rest ih =>
    obtain ⟨a, b⟩ := p
    rw [List.map_cons] at hnd
    have hnd' := List.nodup_cons.mp hnd
    rcases List.mem_cons.mp hmem with heq | hmem'
    · cases heq
      simp [lookupAssoc]
    · have ha : a ≠ c := by
        intro hac
        subst hac
        exact hnd'.1 (List.mem_map.mpr ⟨(a, ds), hmem', rfl⟩)
      simp [lookupAssoc, ha]
      exact ih hnd'.2 hmem'

theorem lookupAssoc_eq_none_of_not_mem {β : Type} (m : List (String × β))
    (c : String) (h : c ∉ m.map Prod.fst) : lookupAssoc c m = none := by
  induction m with
  | nil => rfl
  | cons p rest ih =>
    obtain ⟨a, b⟩ := p
    have ha : a ≠ c := by
      intro hac
      exact h (by simp [hac])
    simp [lookupAssoc, ha]
    exact ih fun hc => h (by simp [hc])

theorem splitRestAux_append (l₁ l₂ : List Char) (h : ':' ∉ l₁) :
    splitRestAux ':' (l₁ ++ ':' :: l₂) = some l₂ := by
  induction l₁ with
  | nil => simp [splitRestAux]
  | cons a as ih =>
    have ha : a ≠ ':' := fun hc => h (hc ▸ List.mem_cons_self a as)
    simp only [List.cons_append, splitRestAux, if_neg ha]
    exact ih fun hm => h (List.mem_cons_of_mem a hm)

theorem pySplitSnd_append (pre tok : String) (h : ':' ∉ pre.data) :
    pySplitSnd (pre ++ ":" ++ tok) = some tok := by
  have h1 : ((":" : String)).data = [':'] := rfl
  have hd : (pre ++ ":" ++ tok).data = pre.data ++ ':' :: tok.data := by
    rw [string_data_append, string_data_append, h1, List.append_assoc]
    rfl
  unfold pySplitSnd
  rw [hd, splitRestAux_append _ _ h]
  rfl

theorem map_fst_menuVal (m : List (String × List String)) :
    (m.map fun p => (p.1, strListVal p.2)).map Prod.fst = m.map Prod.fst := by
  induction m with
  | nil => rfl
  | cons p rest ih => simp [ih]

theorem filter_self_idem {α : Type} (p : α → Bool) (l : List α) :
    (l.filter p).filter p = l.filter p := by
  induction l with
  | nil => rfl
  | cons a t ih =>
    by_cases h : p a = true
    · simp [List.filter_cons, h, ih]
    · simp [List.filter_cons, h, ih]

theorem purgeAll_of_all_removed (fs : List (String × Nat))
    (removeOk : String → Bool) (h : ∀ e ∈ fs, removeOk e.1 = true) :
    purgeAll fs removeOk = [] := by
  induction fs with
  | nil => rfl
  | cons a t ih =>
    have ha := h a (List.mem_cons_self a t)
    have ht : purgeAll t removeOk = [] :=
      ih fun e he => h e (List.mem_cons_of_mem a he)
    simp only [purgeAll, List.filter_cons, ha] at *
    simpa using ht

theorem idxFrom_length (i : Nat) (l : List String) :
    (idxFrom i l).length = l.length := by
  induction l generalizing i with
  | nil => rfl
  | cons a t ih => simp [idxFrom, ih]

theorem assembleGallerySpec_length_le (userId : Nat)
    (net : String → Option HttpResponse) (urls : List String) :
    (assembleGallerySpec userId net urls).length ≤ 4 := by
  have h1 := List.length_filter_le (fun p => validated net p.2)
    (idxFrom 0 (urls.take 4))
  simp only [assembleGallerySpec, List.length_map]
  calc ((idxFrom 0 (urls.take 4)).filter fun p => validated net p.2).length
      ≤ (idxFrom 0 (urls.take 4)).length := h1
    _ = (urls.take 4).length := idxFrom_length 0 _
    _ ≤ 4 := by rw [List.length_take]; exact Nat.min_le_left _ _

theorem galleryLoop_ok_shape (userId : Nat)
    (net : String → Option HttpResponse) :
    ∀ (us : List String) (i : Nat) (fs fs' : List (String × Nat))
      (g : List String),
      galleryLoop userId net i fs us = Except.ok (fs', g) →
      g = ((idxFrom i us).filter fun p => validated net p.2).map
        fun p => dlFileName userId p.1 := by
  intro us
  induction us with
  | nil =>
    intro i fs fs' g h
    simp [galleryLoop] at h
    simp [idxFrom, h.2.symm]
  | cons u rest ih =>
    intro i fs fs' g h
    cases hnet : net u with
    | none => simp [galleryLoop, download_image, hnet] at h
    | some resp =>
      by_cases hs : resp.status = 200
      · by_cases hl : resp.bodyLen < 1024
        · have hval : validated net u = false := by
            simp [validated, hnet, hs, hl]
          simp only [galleryLoop, download_image, hnet, if_pos hs,
            if_pos hl] at h
          have := ih (i + 1) fs fs' g h
          simp [idxFrom, List.filter_cons, hval, this]
        · have hval : validated net u = true := by
            simp [validated, hnet, hs, hl]
          simp only [galleryLoop, download_image, hnet, if_pos hs,
            if_neg hl] at h
          cases hrec : galleryLoop userId net (i + 1)
              (updateAssoc (dlFileName userId i) resp.bodyLen fs) rest with
          | error e => rw [hrec] at h; cases h
          | ok p =>
            rw [hrec] at h
            obtain ⟨hfs, hg⟩ := Prod.mk.injEq .. ▸ Except.ok.inj h
            have := ih (i + 1) _ p.1 p.2 hrec
            simp [idxFrom, List.filter_cons, hval, ← hg, this]
      · have hval : validated net u = false := by
          simp [validated, hnet, hs]
        simp only [galleryLoop, download_image, hnet, if_neg hs] at h
        have := ih (i + 1) fs fs' g h
        simp [idxFrom, List.filter_cons, hval, this]

theorem isMenuShape_lookup (items : List (String × PyVal)) (k : String)
    (v : PyVal) (hs : isMenuShape (PyVal.dict items) = true)
    (hl : lookupAssoc k items = some v) : ∃ ds, v = PyVal.list ds := by
  have hmem := lookupAssoc_mem k items v hl
  have hs' : ∀ (a : String) (b : PyVal), (a, b) ∈ items → isStrListVal b = true := by
    simpa [isMenuShape, List.all_eq_true] using hs
  have hall := hs' k v hmem
  cases v with
  | list ds => exact ⟨ds, rfl⟩
  | pyNone => simp [isStrListVal] at hall
  | int n => simp [isStrListVal] at hall
  | str s => simp [isStrListVal] at hall
  | dict d => simp [isStrListVal] at hall

theorem categoryBranch_empty (st : BotState) (userId : Nat) (category : PyVal)
    (uid : Nat → String)
    (h : pyDictGet st.menu_data category (PyVal.list [])
        = Except.ok (PyVal.list [])) :
    categoryBranch st userId category uid
      = Except.ok ({ st with user_category_choice := updateAssoc userId category st.user_category_choice },
          [Out.edit Msg.noDishes none]) := by
  simp [categoryBranch, h, pyTruthy]

theorem categoryBranch_dishes (st : BotState) (userId : Nat) (category : PyVal)
    (uid : Nat → String) (d : PyVal) (dr : List PyVal)
    (h : pyDictGet st.menu_data category (PyVal.list [])
        = Except.ok (PyVal.list (d :: dr))) :
    categoryBranch st userId category uid
      = Except.ok ({ st with user_category_choice := updateAssoc userId category st.user_category_choice, button_lookup := (buildKeyboard "dish" uid 0 (d :: dr) st.button_lookup).2 },
          [Out.edit (Msg.chooseDish category)
            (some (buildKeyboard "dish" uid 0 (d :: dr) st.button_lookup).1)]) := by
  simp [categoryBranch, h, pyTruthy, pyIter]

theorem dishBranch_ok (st : BotState) (userId : Nat) (dish : PyVal)
    (search : List String) (net : String → Option HttpResponse)
    (fs' : List (String × Nat)) (g : List String)
    (heq : galleryLoop userId net 0 st.downloads (search.take 4)
        = Except.ok (fs', g)) :
    dishBranch st userId dish search net
      = Except.ok ({ st with user_dish_choice := updateAssoc userId dish st.user_dish_choice, downloads := fs' },
          [Out.edit (Msg.selectedSearching dish) none,
           if g.isEmpty then Out.reply Msg.noRelevantImages none
           else Out.media g,
           Out.reply Msg.continueOrExit
             (some [(PyVal.str "Explore More 🍽", "continue"),
                    (PyVal.str "Exit ❌", "exit")])]) := by
  simp [dishBranch, heq]

/-! ### Claim theorems -/

/-- C2: registering any label through the Token Registry and resolving the
returned token yields that label back exactly: the returned payload splits
into the stored token, and resolving that token in the grown table returns
the registered label. -/
theorem C2_register_resolve (pre : String) (text : PyVal) (uidStr : String)
    (tbl : List (String × PyVal)) (h : ':' ∉ pre.data) :
    pySplitSnd (create_callback pre text uidStr tbl).1 = some uidStr
    ∧ resolve_callback (create_callback pre text uidStr tbl).2 uidStr = text := by
  constructor
  · exact pySplitSnd_append pre uidStr h
  · show resolve_callback (updateAssoc uidStr text tbl) uidStr = text
    simp [resolve_callback, lookupAssoc_updateAssoc_self]

theorem C2_register_resolve_witness :
    pySplitSnd (create_callback "category" (PyVal.str "Pizza") "ab12cd34" []).1
      = some "ab12cd34"
    ∧ resolve_callback
        (create_callback "category" (PyVal.str "Pizza") "ab12cd34" []).2
        "ab12cd34" = PyVal.str "Pizza" :=
  C2_register_resolve "category" (PyVal.str "Pizza") "ab12cd34" [] (by decide)

/-- C3: resolving a token that was never registered returns the sentinel
string Unknown; resolve_callback is a total function, so it never raises. -/
theorem C3_resolve_unregistered (tbl : List (String × PyVal)) (tok : String)
    (h : lookupAssoc tok tbl = none) :
    resolve_callback tbl tok = PyVal.str "Unknown" := by
  simp [resolve_callback, h]

theorem C3_resolve_unregistered_witness :
    resolve_callback [] "deadbeef" = PyVal.str "Unknown" :=
  C3_resolve_unregistered [] "deadbeef" rfl

/-- C4 counterexample: on a network error (no response arrives) the claim
says fetchAndValidate returns false without raising, but download_image has
no exception handler, so the client error propagates: the result is a raised
exception, not the boolean false. -/
theorem C4_network_error_counterexample :
    download_image "http://img" "downloads/0_0.jpg" (fun _ => none) []
      = Except.error PyErr.netError
    ∧ download_image "http://img" "downloads/0_0.jpg" (fun _ => none) []
      ≠ Except.ok (false, []) := by
  constructor
  · rfl
  · intro h
    cases h

/-- C4 amended: whenever an HTTP response does arrive, download_image returns
true exactly when the status is 200 and the body is at least 1024 bytes, it
writes the file only in that case, and it returns false without raising on a
non-success status or a too-small body; a network error instead propagates
as an exception. -/
theorem C4_fetch_validate (url fp : String)
    (net : String → Option HttpResponse) (resp : HttpResponse)
    (fs : List (String × Nat)) (h : net url = some resp) :
    download_image url fp net fs
      = if resp.status = 200 ∧ 1024 ≤ resp.bodyLen then
          Except.ok (true, updateAssoc fp resp.bodyLen fs)
        else Except.ok (false, fs) := by
  simp only [download_image, h]
  by_cases hs : resp.status = 200
  · by_cases hl : resp.bodyLen < 1024
    · rw [if_pos hs, if_pos hl,
        if_neg (by omega : ¬(resp.status = 200 ∧ 1024 ≤ resp.bodyLen))]
    · rw [if_pos hs, if_neg hl, if_pos ⟨hs, by omega⟩]
  · rw [if_neg hs, if_neg (fun hc => hs hc.1)]

theorem C4_fetch_validate_witness :
    download_image "http://img" "downloads/1_0.jpg"
      (fun _ => some ⟨200, 2048⟩) []
      = if (HttpResponse.mk 200 2048).status = 200
            ∧ 1024 ≤ (HttpResponse.mk 200 2048).bodyLen then
          Except.ok (true,
            updateAssoc "downloads/1_0.jpg" (HttpResponse.mk 200 2048).bodyLen [])
        else Except.ok (false, []) :=
  C4_fetch_validate "http://img" "downloads/1_0.jpg" _ ⟨200, 2048⟩ [] rfl

/-- C9: the exit event purges the transient download area through purgeAll:
the handler always succeeds (removal failures are swallowed, never raised),
purging an already-purged area changes nothing, an area whose removals all
succeed ends empty, and purging an empty area succeeds and yields an empty
area. -/
theorem C9_exit_purge (st : BotState) (userId : Nat) (uid : Nat → String)
    (search : List String) (net : String → Option HttpResponse)
    (removeOk : String → Bool) :
    handle_selection st userId "exit" uid search net removeOk
      = Except.ok ({ st with downloads := purgeAll st.downloads removeOk },
          [Out.reply Msg.farewell none])
    ∧ purgeAll (purgeAll st.downloads removeOk) removeOk
      = purgeAll st.downloads removeOk
    ∧ ((∀ e ∈ st.downloads, removeOk e.1 = true) →
        purgeAll st.downloads removeOk = [])
    ∧ purgeAll [] removeOk = [] :=
  ⟨rfl, filter_self_idem _ _, purgeAll_of_all_removed _ _, rfl⟩

theorem C9_exit_purge_witness :
    purgeAll [("downloads/0_0.jpg", 2048)] (fun _ => true) = [] :=
  (C9_exit_purge ⟨PyVal.dict [], [], [], [], [("downloads/0_0.jpg", 2048)]⟩ 3
      (fun _ => "u") [] (fun _ => none) (fun _ => true)).2.2.1
    (fun _ _ => rfl)

/-- C10: a button press whose callback data matches none of the recognized
forms falls through the dispatch chain: no outbound message is produced and
the whole state (menu, registry, selections, download area) is returned
unchanged. -/
theorem C10_unmatched_data (st : BotState) (userId : Nat) (data : String)
    (uid : Nat → String) (search : List String)
    (net : String → Option HttpResponse) (removeOk : String → Bool)
    (h1 : pyStartsWith "category:" data = false)
    (h2 : pyStartsWith "dish:" data = false)
    (h3 : data ≠ "continue") (h4 : data ≠ "exit") :
    handle_selection st userId data uid search net removeOk
      = Except.ok (st, []) := by
  simp [handle_selection, h1, h2, h3, h4]

theorem C10_unmatched_data_witness :
    handle_selection ⟨PyVal.dict [], [], [], [], []⟩ 1 "hello" (fun _ => "u")
      [] (fun _ => none) (fun _ => true)
      = Except.ok (⟨PyVal.dict [], [], [], [], []⟩, []) :=
  C10_unmatched_data ⟨PyVal.dict [], [], [], [], []⟩ 1 "hello" (fun _ => "u")
    [] (fun _ => none) (fun _ => true) rfl rfl (by decide) (by decide)

/-- C1 counterexample: the structuring output refuting the claim is the
string bracket one comma two comma three bracket, a syntactically valid
literal whose value is a list, not a mapping: its parse outcome is the list
value below. The shape is wrong, yet the handler does not produce the
parse-failure reply: it replaces the active menu with the list and only then
fails on the keys call, answering with the generic processing-error message,
so the menu model is not left as it was. -/
theorem C1_wrong_shape_counterexample :
    isMenuShape (PyVal.list [PyVal.int 1, PyVal.int 2, PyVal.int 3]) = false
    ∧ (handle_image
        ⟨PyVal.dict [("Starters", PyVal.list [PyVal.str "Garlic Bread"])],
          [], [], [], []⟩
        "f1" 5000 "Starters Garlic Bread"
        (Except.ok (some (PyVal.list [PyVal.int 1, PyVal.int 2, PyVal.int 3])))
        (fun _ => "u0")).1.menu_data
      = PyVal.list [PyVal.int 1, PyVal.int 2, PyVal.int 3]
    ∧ PyVal.list [PyVal.int 1, PyVal.int 2, PyVal.int 3]
      ≠ PyVal.dict [("Starters", PyVal.list [PyVal.str "Garlic Bread"])]
    ∧ (handle_image
        ⟨PyVal.dict [("Starters", PyVal.list [PyVal.str "Garlic Bread"])],
          [], [], [], []⟩
        "f1" 5000 "Starters Garlic Bread"
        (Except.ok (some (PyVal.list [PyVal.int 1, PyVal.int 2, PyVal.int 3])))
        (fun _ => "u0")).2
      = [Out.reply Msg.imageReceived none,
         Out.reply (Msg.processingError PyErr.attributeError) none] :=
  ⟨rfl, rfl, fun h => PyVal.noConfusion h, rfl⟩

/-- C1 amended: when the literal evaluation of the structuring output raises
(malformed syntax or non-literal content), the handler emits the
parse-failure reply telling the user to resend and leaves the active menu
and the token registry exactly as they were; but a syntactically valid
literal of the wrong shape is not rejected by the parse step: a list value
replaces the active menu and the failure surfaces only as a generic
processing-error reply. -/
theorem C1_parse_failure (st : BotState) (fileId : String) (photoSize : Nat)
    (text : String) (uid : Nat → String) (bad : List PyVal)
    (h : pyStrip text ≠ "") :
    ((handle_image st fileId photoSize text (Except.ok none) uid).1.menu_data
        = st.menu_data
      ∧ (handle_image st fileId photoSize text
          (Except.ok none) uid).1.button_lookup = st.button_lookup
      ∧ (handle_image st fileId photoSize text (Except.ok none) uid).2
        = [Out.reply Msg.imageReceived none, Out.reply Msg.parseFailed none])
    ∧ ((handle_image st fileId photoSize text
          (Except.ok (some (PyVal.list bad))) uid).1.menu_data
        = PyVal.list bad
      ∧ (handle_image st fileId photoSize text
          (Except.ok (some (PyVal.list bad))) uid).2
        = [Out.reply Msg.imageReceived none,
           Out.reply (Msg.processingError PyErr.attributeError) none]) := by
  refine ⟨⟨?_, ?_, ?_⟩, ?_, ?_⟩ <;>
    simp [handle_image, savedPhoto, h, pyDictKeysList]

theorem C1_parse_failure_witness :
    ((handle_image ⟨PyVal.dict [], [], [], [], []⟩ "f1" 5000 "menu"
        (Except.ok none) (fun _ => "u0")).1.menu_data
        = (⟨PyVal.dict [], [], [], [], []⟩ : BotState).menu_data
      ∧ (handle_image ⟨PyVal.dict [], [], [], [], []⟩ "f1" 5000 "menu"
          (Except.ok none) (fun _ => "u0")).1.button_lookup
        = (⟨PyVal.dict [], [], [], [], []⟩ : BotState).button_lookup
      ∧ (handle_image ⟨PyVal.dict [], [], [], [], []⟩ "f1" 5000 "menu"
          (Except.ok none) (fun _ => "u0")).2
        = [Out.reply Msg.imageReceived none, Out.reply Msg.parseFailed none])
    ∧ ((handle_image ⟨PyVal.dict [], [], [], [], []⟩ "f1" 5000 "menu"
          (Except.ok (some (PyVal.list [PyVal.int 1]))) (fun _ => "u0")).1.menu_data
        = PyVal.list [PyVal.int 1]
      ∧ (handle_image ⟨PyVal.dict [], [], [], [], []⟩ "f1" 5000 "menu"
          (Except.ok (some (PyVal.list [PyVal.int 1]))) (fun _ => "u0")).2
        = [Out.reply Msg.imageReceived none,
           Out.reply (Msg.processingError PyErr.attributeError) none]) :=
  C1_parse_failure ⟨PyVal.dict [], [], [], [], []⟩ "f1" 5000 "menu"
    (fun _ => "u0") [PyVal.int 1] (by decide)

/-- C5: whenever the dish-branch download loop over the first four search
results completes, the media group it assembled is exactly the validated
subset of those URLs in search order, rendered as the per-index local file
names, and it holds at most four entries. -/
theorem C5_gallery (userId : Nat) (urls : List String)
    (net : String → Option HttpResponse) (fs fs' : List (String × Nat))
    (g : List String)
    (h : galleryLoop userId net 0 fs (urls.take 4) = Except.ok (fs', g)) :
    g = assembleGallerySpec userId net urls ∧ g.length ≤ 4 := by
  have hg := galleryLoop_ok_shape userId net (urls.take 4) 0 fs fs' g h
  refine ⟨hg, ?_⟩
  rw [hg]
  exact assembleGallerySpec_length_le userId net urls

theorem C5_gallery_witness :
    ["downloads/7_0.jpg", "downloads/7_1.jpg"]
      = assembleGallerySpec 7 (fun _ => some ⟨200, 4096⟩) ["u1", "u2"]
    ∧ (["downloads/7_0.jpg", "downloads/7_1.jpg"] : List String).length ≤ 4 :=
  C5_gallery 7 ["u1", "u2"] (fun _ => some ⟨200, 4096⟩) []
    [("downloads/7_0.jpg", 4096), ("downloads/7_1.jpg", 4096)]
    ["downloads/7_0.jpg", "downloads/7_1.jpg"] rfl

/-- C6: for a well-shaped structured menu, listing the keys returns the
categories in the order the source mapping carries them; reading a present
category returns exactly its dish list; and reading an absent category
returns the empty list, through the empty-list default of the get call. -/
theorem C6_menu_model (m : List (String × List String))
    (hnd : (m.map Prod.fst).Nodup) :
    pyDictKeysList (menuVal m) = Except.ok (m.map Prod.fst)
    ∧ (∀ c ds, (c, ds) ∈ m →
        pyDictGet (menuVal m) (PyVal.str c) (PyVal.list [])
          = Except.ok (strListVal ds))
    ∧ (∀ c, c ∉ m.map Prod.fst →
        pyDictGet (menuVal m) (PyVal.str c) (PyVal.list [])
          = Except.ok (PyVal.list [])) := by
  refine ⟨?_, ?_, ?_⟩
  · simp only [pyDictKeysList, menuVal, map_fst_menuVal]
  · intro c ds hmem
    have hnd' : ((m.map fun p => (p.1, strListVal p.2)).map Prod.fst).Nodup := by
      rw [map_fst_menuVal]
      exact hnd
    have hl := lookupAssoc_of_mem_nodup (m.map fun p => (p.1, strListVal p.2))
      c (strListVal ds) hnd' (List.mem_map.mpr ⟨(c, ds), hmem, rfl⟩)
    simp [pyDictGet, menuVal, hl]
  · intro c hc
    have hl := lookupAssoc_eq_none_of_not_mem
      (m.map fun p => (p.1, strListVal p.2)) c
      (by rw [map_fst_menuVal]; exact hc)
    simp [pyDictGet, menuVal, hl]

theorem C6_menu_model_witness :
    pyDictKeysList (menuVal [("Starters", ["Garlic Bread", "Spring Rolls"]),
        ("Mains", ["Grilled Salmon"])])
      = Except.ok ([("Starters", ["Garlic Bread", "Spring Rolls"]),
          ("Mains", ["Grilled Salmon"])].map Prod.fst)
    ∧ (∀ c ds, (c, ds) ∈ [("Starters", ["Garlic Bread", "Spring Rolls"]),
          ("Mains", ["Grilled Salmon"])] →
        pyDictGet (menuVal [("Starters", ["Garlic Bread", "Spring Rolls"]),
            ("Mains", ["Grilled Salmon"])]) (PyVal.str c) (PyVal.list [])
          = Except.ok (strListVal ds))
    ∧ (∀ c, c ∉ [("Starters", ["Garlic Bread", "Spring Rolls"]),
          ("Mains", ["Grilled Salmon"])].map Prod.fst →
        pyDictGet (menuVal [("Starters", ["Garlic Bread", "Spring Rolls"]),
            ("Mains", ["Grilled Salmon"])]) (PyVal.str c) (PyVal.list [])
          = Except.ok (PyVal.list [])) :=
  C6_menu_model [("Starters", ["Garlic Bread", "Spring Rolls"]),
    ("Mains", ["Grilled Salmon"])] (by decide)

/-- C7: a selection event whose token is absent from the registry resolves to
the sentinel Unknown and the handler proceeds exactly as the normal category
or dish transition for the literal string Unknown; with a well-shaped menu
the category transition completes without raising, and with responses for
the attempted downloads the dish transition completes without raising. -/
theorem C7_unknown_token (st : BotState) (userId : Nat) (tok : String)
    (uid : Nat → String) (search : List String)
    (net : String → Option HttpResponse) (removeOk : String → Bool)
    (hmiss : lookupAssoc tok st.button_lookup = none) :
    handle_selection st userId ("category:" ++ tok) uid search net removeOk
      = categoryBranch st userId (PyVal.str "Unknown") uid
    ∧ handle_selection st userId ("dish:" ++ tok) uid search net removeOk
      = dishBranch st userId (PyVal.str "Unknown") search net
    ∧ (isMenuShape st.menu_data = true →
        ∃ r, categoryBranch st userId (PyVal.str "Unknown") uid
          = Except.ok r)
    ∧ ((∀ u ∈ search.take 4, net u ≠ none) →
        ∃ r, dishBranch st userId (PyVal.str "Unknown") search net
          = Except.ok r) := by
  have hres : resolve_callback st.button_lookup tok = PyVal.str "Unknown" := by
    simp [resolve_callback, hmiss]
  refine ⟨?_, ?_, ?_, ?_⟩
  · have h1 : handle_selection st userId ("category:" ++ tok) uid search net
        removeOk
        = categoryBranch st userId (resolve_callback st.button_lookup tok)
          uid := rfl
    rw [h1, hres]
  · have h1 : handle_selection st userId ("dish:" ++ tok) uid search net
        removeOk
        = dishBranch st userId (resolve_callback st.button_lookup tok)
          search net := rfl
    rw [h1, hres]
  · intro hshape
    cases hmenu : st.menu_data with
    | pyNone => rw [hmenu] at hshape; simp [isMenuShape] at hshape
    | int n => rw [hmenu] at hshape; simp [isMenuShape] at hshape
    | str s => rw [hmenu] at hshape; simp [isMenuShape] at hshape
    | list xs => rw [hmenu] at hshape; simp [isMenuShape] at hshape
    | dict items =>
      rw [hmenu] at hshape
      cases hlk : lookupAssoc "Unknown" items with
      | none =>
        exact ⟨_, categoryBranch_empty st userId (PyVal.str "Unknown") uid
          (by simp [pyDictGet, hmenu, hlk])⟩
      | some v =>
        obtain ⟨ds, rfl⟩ := isMenuShape_lookup items "Unknown" v hshape hlk
        cases ds with
        | nil =>
          exact ⟨_, categoryBranch_empty st userId (PyVal.str "Unknown") uid
            (by simp [pyDictGet, hmenu, hlk])⟩
        | cons d dr =>
          exact ⟨_, categoryBranch_dishes st userId (PyVal.str "Unknown") uid
            d dr (by simp [pyDictGet, hmenu, hlk])⟩
  · intro hnet
    have hok : ∀ (us : List String) (i : Nat) (fs : List (String × Nat)),
        (∀ u ∈ us, net u ≠ none) →
        ∃ p, galleryLoop userId net i fs us = Except.ok p := by
      intro us
      induction us with
      | nil => exact fun i fs _ => ⟨(fs, []), rfl⟩
      | cons u rest ih =>
        intro i fs h
        have hu := h u (List.mem_cons_self u rest)
        have hrest : ∀ v ∈ rest, net v ≠ none :=
          fun v hv => h v (List.mem_cons_of_mem u hv)
        cases hnetu : net u with
        | none => exact absurd hnetu hu
        | some resp =>
          by_cases hs : resp.status = 200
          · by_cases hl : resp.bodyLen < 1024
            · obtain ⟨p, hp⟩ := ih (i + 1) fs hrest
              exact ⟨p, by
                simp only [galleryLoop, download_image, hnetu, if_pos hs,
                  if_pos hl]
                exact hp⟩
            · obtain ⟨p, hp⟩ := ih (i + 1)
                (updateAssoc (dlFileName userId i) resp.bodyLen fs) hrest
              refine ⟨(p.1, dlFileName userId i :: p.2), ?_⟩
              simp only [galleryLoop, download_image, hnetu, if_pos hs,
                if_neg hl, hp]
          · obtain ⟨p, hp⟩ := ih (i + 1) fs hrest
            exact ⟨p, by
              simp only [galleryLoop, download_image, hnetu, if_neg hs]
              exact hp⟩
    obtain ⟨p, hp⟩ := hok (search.take 4) 0 st.downloads hnet
    exact ⟨_, dishBranch_ok st userId (PyVal.str "Unknown") search net p.1 p.2
      (by rw [hp])⟩

theorem C7_unknown_token_witness :
    handle_selection
        ⟨PyVal.dict [("Mains", PyVal.list [PyVal.str "Fish"])], [], [], [], []⟩
        1 ("category:" ++ "zz") (fun _ => "u0") ["a"]
        (fun _ => some ⟨200, 4096⟩) (fun _ => true)
      = categoryBranch
          ⟨PyVal.dict [("Mains", PyVal.list [PyVal.str "Fish"])], [], [], [], []⟩
          1 (PyVal.str "Unknown") (fun _ => "u0")
    ∧ handle_selection
        ⟨PyVal.dict [("Mains", PyVal.list [PyVal.str "Fish"])], [], [], [], []⟩
        1 ("dish:" ++ "zz") (fun _ => "u0") ["a"]
        (fun _ => some ⟨200, 4096⟩) (fun _ => true)
      = dishBranch
          ⟨PyVal.dict [("Mains", PyVal.list [PyVal.str "Fish"])], [], [], [], []⟩
          1 (PyVal.str "Unknown") ["a"] (fun _ => some ⟨200, 4096⟩)
    ∧ (isMenuShape
          (⟨PyVal.dict [("Mains", PyVal.list [PyVal.str "Fish"])], [], [], [],
            []⟩ : BotState).menu_data = true →
        ∃ r, categoryBranch
          ⟨PyVal.dict [("Mains", PyVal.list [PyVal.str "Fish"])], [], [], [], []⟩
          1 (PyVal.str "Unknown") (fun _ => "u0") = Except.ok r)
    ∧ ((∀ u ∈ (["a"] : List String).take 4,
          (fun (_ : String) => some (HttpResponse.mk 200 4096)) u ≠ none) →
        ∃ r, dishBranch
          ⟨PyVal.dict [("Mains", PyVal.list [PyVal.str "Fish"])], [], [], [], []⟩
          1 (PyVal.str "Unknown") ["a"] (fun _ => some ⟨200, 4096⟩)
          = Except.ok r) :=
  C7_unknown_token
    ⟨PyVal.dict [("Mains", PyVal.list [PyVal.str "Fish"])], [], [], [], []⟩
    1 "zz" (fun _ => "u0") ["a"] (fun _ => some ⟨200, 4096⟩) (fun _ => true)
    rfl

/-- C8: a category-selection event whose resolved category has an empty dish
list (or no entry at all, through the empty default) stores the choice, emits
only the informational no-dishes edit with no buttons, registers no dish
tokens, and leaves the menu and download area unchanged, so the session
stays at the category-choice stage. -/
theorem C8_empty_category (st : BotState) (userId : Nat) (tok : String)
    (uid : Nat → String) (search : List String)
    (net : String → Option HttpResponse) (removeOk : String → Bool)
    (h : pyDictGet st.menu_data (resolve_callback st.button_lookup tok)
        (PyVal.list []) = Except.ok (PyVal.list [])) :
    handle_selection st userId ("category:" ++ tok) uid search net removeOk
      = Except.ok ({ st with user_category_choice := updateAssoc userId (resolve_callback st.button_lookup tok) st.user_category_choice },
          [Out.edit Msg.noDishes none]) := by
  have h1 : handle_selection st userId ("category:" ++ tok) uid search net
      removeOk
      = categoryBranch st userId (resolve_callback st.button_lookup tok)
        uid := rfl
  rw [h1]
  exact categoryBranch_empty st userId _ uid h

theorem C8_empty_category_witness :
    handle_selection
        ⟨PyVal.dict [("Empty", PyVal.list [])], [], [],
          [("t1", PyVal.str "Empty")], []⟩
        5 ("category:" ++ "t1") (fun _ => "u0") [] (fun _ => none)
        (fun _ => true)
      = Except.ok
          ({ (⟨PyVal.dict [("Empty", PyVal.list [])], [], [],
              [("t1", PyVal.str "Empty")], []⟩ : BotState) with
            user_category_choice := updateAssoc 5
              (resolve_callback [("t1", PyVal.str "Empty")] "t1") [] },
          [Out.edit Msg.noDishes none]) :=
  C8_empty_category
    ⟨PyVal.dict [("Empty", PyVal.list [])], [], [],
      [("t1", PyVal.str "Empty")], []⟩
    5 "t1" (fun _ => "u0") [] (fun _ => none) (fun _ => true) rfl
